import Mathlib

/-
Verification of the gesture-recognition engine (src/core/gesture-detector.js)
and the event registry (EventRegistry) of the hmi repository.

JavaScript numbers are modelled as real numbers; JS `%` on numbers is the
truncated-division remainder, modelled by jsFmod below.  Exceptions are
modelled with Except: code that wraps a call in try/catch consumes the
Except value, code without a handler propagates it.
-/

open scoped Classical

noncomputable section

namespace HMI

/-- Point with x and y coordinate, as produced by calculateCentroid. -/
structure Pt where
  x : ℝ
  y : ℝ

/-- One recorded input sample: x, y, timestamp, pressure (source: handleMouseMove). -/
structure Sample where
  x : ℝ
  y : ℝ
  timestamp : ℝ
  pressure : ℝ

/-- Projection of a sample to its coordinates. -/
def Sample.pt (s : Sample) : Pt := ⟨s.x, s.y⟩

/-- One touch contact: id, start position, current position, timestamp
(source: handleTouchStart). -/
structure TouchPoint where
  id : ℕ
  start : Pt
  current : Pt
  timestamp : ℝ

/-- The four compass directions returned by angleToDirection. -/
inductive Direction where
  | right
  | down
  | left
  | up
deriving DecidableEq

/-- Truncation toward zero, as used by the JS `%` operator on numbers. -/
def jsTrunc (x : ℝ) : ℤ := if 0 ≤ x then ⌊x⌋ else ⌈x⌉

/-- The JS remainder operator `a % b`: a - b * trunc (a / b). -/
def jsFmod (a b : ℝ) : ℝ := a - b * jsTrunc (a / b)

/-- Euclidean distance (source: distance(p1, p2)). -/
def distance (p1 p2 : Pt) : ℝ := Real.sqrt ((p1.x - p2.x) ^ 2 + (p1.y - p2.y) ^ 2)

/-- Centroid of a point list (source: calculateCentroid), a reduce summing the
coordinates followed by division by the length. -/
def calculateCentroid (points : List Sample) : Pt :=
  let s := points.foldl (fun (acc : Pt) p => ⟨acc.x + p.x, acc.y + p.y⟩) ⟨0, 0⟩
  ⟨s.x / points.length, s.y / points.length⟩

/-- Math.atan2 y x, the angle of the point (x, y), in radians in (-pi, pi]. -/
def atan2 (y x : ℝ) : ℝ := Complex.arg ⟨x, y⟩

/-- Angle from start to end in degrees (source: calculateAngle). -/
def calculateAngle (start stop : Sample) : ℝ :=
  atan2 (stop.y - start.y) (stop.x - start.x) * 180 / Real.pi

/-- The normalisation step of angleToDirection: ((angle % 360) + 360) % 360. -/
def jsNormalize (angle : ℝ) : ℝ := jsFmod (jsFmod angle 360 + 360) 360

/-- Bucketing of an angle in degrees into the four compass quadrants
(source: angleToDirection). -/
def angleToDirection (angle : ℝ) : Direction :=
  if jsNormalize angle < 45 ∨ 315 ≤ jsNormalize angle then .right
  else if jsNormalize angle < 135 then .down
  else if jsNormalize angle < 225 then .left
  else .up

/-- Result object returned by the detectors.  JS result objects carry
different fields per detector; absent fields are modelled as none. -/
structure DetectionResult where
  isMatch : Bool := false
  confidence : Option ℝ := none
  radius : Option ℝ := none
  center : Option Pt := none
  metaPoints : Option ℕ := none
  metaCoverage : Option ℝ := none
  direction : Option Direction := none
  distance : Option ℝ := none
  duration : Option ℝ := none
  velocity : Option ℝ := none
  angle : Option ℝ := none
  changes : Option ℕ := none
  avgAmplitude : Option ℝ := none
  scale : Option ℝ := none
  scaleChange : Option ℝ := none
  isPinchIn : Option Bool := none
  isPinchOut : Option Bool := none

/-- A user-supplied detector (the custom escape hatch); it may throw. -/
abbrev DetectorFn : Type :=
  List Sample → List TouchPoint → Except String DetectionResult

/-- Options record passed at registration (the union of the option fields used
by the detectors; absent fields keep their default, they are never read for
patterns of another type). -/
structure GestureOptions where
  radius : ℝ := 0
  tolerance : ℝ := 0
  minPoints : ℝ := 0
  amplitude : ℝ := 0
  minLength : ℝ := 0
  maxDeviation : ℝ := 0
  direction : Option Direction := none
  minDistance : ℝ := 0
  maxTime : ℝ := 0
  threshold : ℝ := 0
  detectionFn : Option DetectorFn := none
  sequenceEvents : List String := []
  timeout : ℝ := 0
  currentStep : ℕ := 0

/-- The loop body of detectMouseCircle: accumulate the distance sum and the
count of points whose distance to the centre is within radius * tolerance. -/
def circleStep (center : Pt) (radius tolerance : ℝ) (acc : ℝ × ℕ) (p : Sample) : ℝ × ℕ :=
  let d := distance p.pt center
  if |d - radius| ≤ radius * tolerance then (acc.1 + d, acc.2 + 1) else acc

/-- The circle detector (source: detectMouseCircle). -/
def detectMouseCircle (points : List Sample) (options : GestureOptions) : DetectionResult :=
  if points.length < 8 then { isMatch := false }
  else
    let center := calculateCentroid points
    let scan := points.foldl (circleStep center options.radius options.tolerance) (0, 0)
    let coverage := (scan.2 : ℝ) / points.length
    let avgRadius := scan.1 / (scan.2 : ℝ)
    { isMatch := if 0.7 ≤ coverage then true else false
      confidence := some coverage
      radius := some avgRadius
      center := some center
      metaPoints := some points.length
      metaCoverage := some coverage }

/-- The swipe detector (source: detectSwipe). -/
def detectSwipe (points : List Sample) (options : GestureOptions) : DetectionResult :=
  if points.length < 2 then { isMatch := false }
  else
    let start := points.headD ⟨0, 0, 0, 0⟩
    let stop := points.getLastD ⟨0, 0, 0, 0⟩
    let dist := distance start.pt stop.pt
    let dur := stop.timestamp - start.timestamp
    if dist < options.minDistance ∨ options.maxTime < dur then { isMatch := false }
    else
      let ang := calculateAngle start stop
      let detected := angleToDirection ang
      { isMatch := match options.direction with
          | none => true
          | some d => if detected = d then true else false
        direction := some detected
        distance := some dist
        duration := some dur
        velocity := some (dist / dur)
        angle := some ang }

/-- The inner loop of detectMouseZigzag over consecutive triples: counts the
vertical direction reversals and sums their amplitudes. -/
def zigzagScan : List Sample → ℕ × ℝ
  | p :: q :: r :: rest =>
    let acc := zigzagScan (q :: r :: rest)
    let dir1 := q.y - p.y
    let dir2 := r.y - q.y
    if dir1 * dir2 < 0 then (acc.1 + 1, acc.2 + |q.y - p.y|) else acc
  | _ => (0, 0)

/-- The zigzag detector (source: detectMouseZigzag). -/
def detectMouseZigzag (points : List Sample) (options : GestureOptions) : DetectionResult :=
  if (points.length : ℝ) < options.minPoints then { isMatch := false }
  else
    let scan := zigzagScan points
    let avgAmplitude := scan.2 / max (scan.1 : ℝ) 1
    { isMatch := if options.minPoints / 2 ≤ (scan.1 : ℝ) ∧ options.amplitude ≤ avgAmplitude
        then true else false
      changes := some scan.1
      avgAmplitude := some avgAmplitude
      confidence := some (min ((scan.1 : ℝ) / (options.minPoints / 2)) 1) }

/-- The pinch detector (source: detectPinch); requires exactly two touches. -/
def detectPinch (touches : List TouchPoint) (options : GestureOptions) : DetectionResult :=
  match touches with
  | [t1, t2] =>
    let initialDistance := distance t1.start t2.start
    let currentDistance := distance t1.current t2.current
    let scale := currentDistance / initialDistance
    let scaleChange := |1 - scale|
    { isMatch := if options.threshold ≤ scaleChange then true else false
      scale := some scale
      scaleChange := some scaleChange
      isPinchIn := some (if scale < 1 then true else false)
      isPinchOut := some (if 1 < scale then true else false) }
  | _ => { isMatch := false }

/-- Lookup in an insertion-ordered association list, modelling Map.get. -/
def mapGet {α : Type _} : List (String × α) → String → Option α
  | [], _ => none
  | (k2, v2) :: rest, k => if k2 = k then some v2 else mapGet rest k

/-- Update in an insertion-ordered association list, modelling Map.set: an
existing key keeps its position and gets the new value, a new key is appended. -/
def mapSet {α : Type _} : List (String × α) → String → α → List (String × α)
  | [], k, v => [(k, v)]
  | (k2, v2) :: rest, k, v => if k2 = k then (k, v) :: rest else (k2, v2) :: mapSet rest k v

/-- Removal from an insertion-ordered association list, modelling Map.delete. -/
def mapDelete {α : Type _} : List (String × α) → String → List (String × α)
  | [], _ => []
  | (k2, v2) :: rest, k => if k2 = k then rest else (k2, v2) :: mapDelete rest k

/-- Per-registration statistics (source: the stats record of registerPattern). -/
structure GestureStats where
  triggered : ℕ
  avgConfidence : ℝ
  totalConfidence : ℝ

/-- The pattern type tags stored by registerPattern and dispatched on by
analyzeActiveGestures. -/
inductive PatternType where
  | mouse_circle
  | mouse_zigzag
  | mouse_line
  | swipe
  | pinch
  | sequence
  | custom
deriving DecidableEq

/-- The event object passed to every gesture handler by triggerGesture
(the target field of the source object is omitted). -/
structure HandlerEvent where
  name : String
  type : PatternType
  result : DetectionResult
  timestamp : ℝ
  stats : GestureStats

/-- A gesture handler; it may throw, and triggerGesture catches per handler. -/
abbrev Handler : Type := HandlerEvent → Except String Unit

/-- A guard condition callback (source: conditions checked by checkConditions). -/
abbrev Condition : Type := Unit → Bool

/-- One registration's record as created by registerPattern. -/
structure PatternState where
  type : PatternType
  options : GestureOptions
  handlers : List Handler
  conditions : List Condition
  cooldown : ℝ
  lastTriggered : ℝ
  active : Bool
  stats : GestureStats

/-- The registry: the patterns Map of the detector, keyed by gesture name in
insertion order. -/
abbrev Registry : Type := List (String × PatternState)

/-- Registration (source: registerPattern).  The source unconditionally calls
patterns.set(name, fresh record); there is no duplicate check. -/
def registerPattern (patterns : Registry) (name : String) (type : PatternType)
    (options : GestureOptions) : Registry :=
  mapSet patterns name ⟨type, options, [], [], 100, 0, false, ⟨0, 0, 0⟩⟩

/-- Sequence registration (source: registerSequencePattern); the generator
closure is determined by the event list, which we store directly. -/
def registerSequencePattern (patterns : Registry) (name : String)
    (eventSequence : List String) : Registry :=
  registerPattern patterns name .sequence
    { sequenceEvents := eventSequence, timeout := 5000, currentStep := 0 }

/-- Marking every pattern active (source: startDetection with no name). -/
def startDetection (patterns : Registry) : Registry :=
  patterns.map (fun e => (e.1, { e.2 with active := true }))

/-- Conjunction of all guard conditions (source: checkConditions). -/
def checkConditions (p : PatternState) : Bool :=
  p.conditions.all (fun c => c ())

/-- The statistics update performed by triggerGesture on a non-suppressed
firing. -/
def triggerStats (p : PatternState) (result : DetectionResult) : GestureStats :=
  let total := p.stats.totalConfidence + (result.confidence.getD 0)
  let count := p.stats.triggered + 1
  ⟨count, total / (count : ℝ), total⟩

/-- The event object handed to each handler of a firing registration. -/
def triggerEvent (p : PatternState) (name : String) (now : ℝ)
    (result : DetectionResult) : HandlerEvent :=
  ⟨name, p.type, result, now, triggerStats p result⟩

/-- Gesture firing (source: triggerGesture).  Inside the cooldown window the
call returns with no state change and no handler invocation; otherwise
lastTriggered and the stats are updated and every handler is invoked inside
its own try/catch, so a throwing handler yields an error outcome without
stopping the others. -/
def triggerGesture (p : PatternState) (name : String) (now : ℝ)
    (result : DetectionResult) : PatternState × Bool × List (Except String Unit) :=
  if now - p.lastTriggered < p.cooldown then (p, false, [])
  else
    let p2 := { p with lastTriggered := now, stats := triggerStats p result }
    (p2, true, p.handlers.map (fun h => h (triggerEvent p name now result)))

/-- Evaluation of one pattern against the buffers, the switch of
analyzeActiveGestures.  The mouse_line tag has no case in the source switch
(and no detectMouseLine exists), so the result keeps its initial
value of no match.  The sequence case calls this.analyzeSequence, a method
that is defined nowhere in the repository, so the call throws a TypeError.
A custom pattern calls the user detector unguarded, so its exception
propagates. -/
def evalPattern (p : PatternState) (mouse : List Sample) (touch : List TouchPoint) :
    Except String DetectionResult :=
  match p.type with
  | .mouse_circle => Except.ok (detectMouseCircle mouse p.options)
  | .mouse_zigzag => Except.ok (detectMouseZigzag mouse p.options)
  | .swipe => Except.ok (detectSwipe mouse p.options)
  | .pinch => Except.ok (detectPinch touch p.options)
  | .custom =>
    match p.options.detectionFn with
    | some f => f mouse touch
    | none => Except.error ("TypeError: detectionFn is not a function")
  | .sequence => Except.error ("TypeError: this.analyzeSequence is not a function")
  | .mouse_line => Except.ok { isMatch := false }

/-- What one tick records about one registration: whether it fired and the
outcome of each of its handler invocations, in order. -/
structure TickEntry where
  name : String
  fired : Bool
  outcomes : List (Except String Unit)

/-- Processing of a single registration during one tick of
analyzeActiveGestures: skip if inactive, evaluate the pattern (detector
exceptions propagate), then fire through triggerGesture when the result
matches and all conditions hold. -/
def analyzeOne (now : ℝ) (mouse : List Sample) (touch : List TouchPoint)
    (e : String × PatternState) : Except String ((String × PatternState) × TickEntry) :=
  if e.2.active = false then Except.ok (e, ⟨e.1, false, []⟩)
  else
    match evalPattern e.2 mouse touch with
    | Except.error msg => Except.error msg
    | Except.ok result =>
      if result.isMatch && checkConditions e.2 then
        Except.ok ((e.1, (triggerGesture e.2 e.1 now result).1),
          ⟨e.1, (triggerGesture e.2 e.1 now result).2.1,
            (triggerGesture e.2 e.1 now result).2.2⟩)
      else
        Except.ok (e, ⟨e.1, false, []⟩)

/-- One detection tick (source: analyzeActiveGestures): the registrations are
processed in registry order; an uncaught detector exception aborts the
remainder of the tick, exactly as an exception aborts Map.forEach. -/
def analyzeActiveGestures (now : ℝ) (mouse : List Sample) (touch : List TouchPoint) :
    Registry → Except String (Registry × List TickEntry)
  | [] => Except.ok ([], [])
  | e :: rest =>
    match analyzeOne now mouse touch e with
    | Except.error msg => Except.error msg
    | Except.ok r1 =>
      match analyzeActiveGestures now mouse touch rest with
      | Except.error msg => Except.error msg
      | Except.ok r2 => Except.ok (r1.1 :: r2.1, r1.2 :: r2.2)

/-- Mouse-down resets the pointer history to the single new sample
(source: handleMouseStart). -/
def handleMouseStart (s : Sample) : List Sample := [s]

/-- Mouse-move appends to a non-empty pointer history and evicts the oldest
sample when the length exceeds 100 (source: handleMouseMove). -/
def handleMouseMove (history : List Sample) (s : Sample) : List Sample :=
  if 0 < history.length then
    let h := history ++ [s]
    if 100 < h.length then h.tail else h
  else history

/-- Sixteen samples evenly spaced on the circle of radius 50 centred at
(100, 100), used by the circle test scenario. -/
def circleDemoPoints : List Sample :=
  (List.range 16).map (fun (k : ℕ) =>
    ⟨100 + 50 * Real.cos (2 * Real.pi * (k : ℝ) / 16),
     100 + 50 * Real.sin (2 * Real.pi * (k : ℝ) / 16), (k : ℝ), 1⟩)

/-- Options of the circle test scenario: radius 50, tolerance 0.3. -/
def circleDemoOptions : GestureOptions := { radius := 50, tolerance := 0.3 }

/-- The two samples of the swipe test scenario: from (50, 100) at time 0 to
(200, 100) at time 200. -/
def swipeDemoPoints : List Sample := [⟨50, 100, 0, 1⟩, ⟨200, 100, 200, 1⟩]

/-- Options of the swipe test scenario: no direction constraint,
minDistance 100, maxTime 300. -/
def swipeDemoOptions : GestureOptions := { minDistance := 100, maxTime := 300 }

/-- The points counted by the circle detector according to the specification:
those whose distance to the centroid differs from the radius by at most
radius * tolerance. -/
def circleCounted (points : List Sample) (radius tolerance : ℝ) : List Sample :=
  points.filter
    (fun p => |distance p.pt (calculateCentroid points) - radius| ≤ radius * tolerance)

/-- Coverage according to the specification: counted points over total points. -/
def circleCoverage (points : List Sample) (radius tolerance : ℝ) : ℝ :=
  ((circleCounted points radius tolerance).length : ℝ) / points.length

/-- Mean distance to the centroid over the counted points, the radius reported
in the detector payload according to the specification. -/
def circleMeanRadius (points : List Sample) (radius tolerance : ℝ) : ℝ :=
  (((circleCounted points radius tolerance).map
      (fun p => distance p.pt (calculateCentroid points))).sum) /
    ((circleCounted points radius tolerance).length : ℝ)

/-- A handler is identified by the function object passed around: either the
caller's own function or a wrapper closure freshly created by wrapHandler.
A wrapper is a new object, never identical to a user function. -/
inductive HandlerRef where
  | user (id : ℕ)
  | wrapped (id : ℕ)
deriving DecidableEq

/-- Insertion into a JS Set in insertion order: append when not present. -/
def setAdd (s : List HandlerRef) (a : HandlerRef) : List HandlerRef :=
  if a ∈ s then s else s ++ [a]

namespace EventRegistry

/-- The identity-relevant state of EventRegistry: the listeners Map from event
name to the Set of stored (wrapped) handlers, a counter providing fresh
wrapper objects, and the activeListeners count.  The behavioural content of
the wrappers (once / throttle / debounce) plays no role in handler identity
and is not modelled. -/
structure State where
  listeners : List (String × List HandlerRef)
  nextWrapId : ℕ
  activeListeners : ℕ

/-- Subscription (source: EventRegistry.on): ensure the event's Set exists,
wrap the handler (a fresh closure object), add the wrapper to the Set and
return it; the source returns the closure () => off(eventName, wrappedHandler),
represented here by the wrapper it captures. -/
def onEvent (st : State) (eventName : String) (_h : HandlerRef) : State × HandlerRef :=
  let base := match mapGet st.listeners eventName with
    | none => mapSet st.listeners eventName []
    | some _ => st.listeners
  let w := HandlerRef.wrapped st.nextWrapId
  let s := (mapGet base eventName).getD []
  (⟨mapSet base eventName (setAdd s w), st.nextWrapId + 1, st.activeListeners + 1⟩, w)

/-- Unsubscription (source: EventRegistry.off): delete the given handler from
the event's Set, decrement the count on success, drop the event key when its
Set becomes empty, and return whether a deletion happened. -/
def offEvent (st : State) (eventName : String) (h : HandlerRef) : State × Bool :=
  match mapGet st.listeners eventName with
  | some s =>
    let removed := decide (h ∈ s)
    let s2 := s.erase h
    let listeners2 := if s2.isEmpty then mapDelete st.listeners eventName
      else mapSet st.listeners eventName s2
    (⟨listeners2, st.nextWrapId,
      if removed then st.activeListeners - 1 else st.activeListeners⟩, removed)
  | none => (st, false)

/-- Well-formedness of the registry state: every stored handler is a wrapper
(EventRegistry.on never stores the caller's function itself). -/
def Wf (st : State) : Prop :=
  ∀ e ∈ st.listeners, ∀ r ∈ e.2, ∃ i, r = HandlerRef.wrapped i

end EventRegistry

/-- Test fixture: a custom detector that always reports a match. -/
def alwaysMatchFn : DetectorFn := fun _ _ => Except.ok { isMatch := true }

/-- Test fixture: a custom detector that always throws. -/
def throwingFn : DetectorFn := fun _ _ => Except.error ("boom")

/-- Test fixture: a handler that always throws. -/
def throwingHandler : Handler := fun _ => Except.error ("boom")

/-- Test fixture: a handler that returns normally. -/
def okHandler : Handler := fun _ => Except.ok ()

/-- Test fixture: an active registration whose first handler throws. -/
def regA : PatternState :=
  ⟨.custom, { detectionFn := some alwaysMatchFn }, [throwingHandler, okHandler],
    [], 0, 0, true, ⟨0, 0, 0⟩⟩

/-- Test fixture: an active registration with one normal handler. -/
def regB : PatternState :=
  ⟨.custom, { detectionFn := some alwaysMatchFn }, [okHandler], [], 0, 0, true,
    ⟨0, 0, 0⟩⟩

/-- Test fixture: an active registration whose detector throws. -/
def regThrow : PatternState :=
  ⟨.custom, { detectionFn := some throwingFn }, [], [], 100, 0, true, ⟨0, 0, 0⟩⟩

/-- Lookup after an update at the same key yields the new value. -/
theorem mapGet_mapSet_self {α : Type _} (m : List (String × α)) (k : String) (v : α) :
    mapGet (mapSet m k v) k = some v := by
  induction m with
  | nil => simp [mapSet, mapGet]
  | cons e rest ih =>
    obtain ⟨k2, v2⟩ := e
    by_cases h : k2 = k
    · simp [mapSet, h, mapGet]
    · simp [mapSet, h, mapGet, ih]

/-- Lookup after an update at a different key is unchanged. -/
theorem mapGet_mapSet_ne {α : Type _} (m : List (String × α)) (k k2 : String) (v : α)
    (h : k2 ≠ k) : mapGet (mapSet m k v) k2 = mapGet m k2 := by
  induction m with
  | nil => simp [mapSet, mapGet, Ne.symm h]
  | cons e rest ih =>
    obtain ⟨k3, v3⟩ := e
    by_cases h3 : k3 = k
    · subst h3
      simp [mapSet, mapGet, Ne.symm h, h]
    · by_cases h4 : k3 = k2 <;> simp [mapSet, mapGet, h3, h4, ih, h]

/-- Writing back the value a key already holds leaves the map unchanged. -/
theorem mapSet_eq_self {α : Type _} (m : List (String × α)) (k : String) (v : α)
    (h : mapGet m k = some v) : mapSet m k v = m := by
  induction m with
  | nil => simp [mapGet] at h
  | cons e rest ih =>
    obtain ⟨k2, v2⟩ := e
    by_cases h2 : k2 = k
    · subst h2
      simp [mapGet] at h
      simp [mapSet, h]
    · simp [mapGet, h2] at h
      simp [mapSet, h2, ih h]

/-- Every entry of an updated map is the new binding or an original entry. -/
theorem mem_mapSet {α : Type _} (m : List (String × α)) (k : String) (v : α) :
    ∀ e ∈ mapSet m k v, e = (k, v) ∨ e ∈ m := by
  induction m with
  | nil => simp [mapSet]
  | cons e0 rest ih =>
    obtain ⟨k2, v2⟩ := e0
    by_cases h2 : k2 = k
    · intro e he
      simp [mapSet, h2] at he
      rcases he with he | he
      · exact Or.inl he
      · exact Or.inr (by simp [he])
    · intro e he
      simp only [mapSet, if_neg h2, List.mem_cons] at he
      rcases he with he | he
      · exact Or.inr (by simp [he])
      · rcases ih e he with h | h
        · exact Or.inl h
        · exact Or.inr (by simp [h])

/-- One mouse-move step keeps the pointer history within the 100-sample cap. -/
theorem handleMouseMove_length_le (h : List Sample) (s : Sample)
    (hle : h.length ≤ 100) : (handleMouseMove h s).length ≤ 100 := by
  simp only [handleMouseMove]
  split_ifs with h1 h2
  · simp only [List.length_tail, List.length_append, List.length_singleton]
    omega
  · simp only [List.length_append, List.length_singleton] at h2 ⊢
    omega
  · exact hle

/-- Folding mouse-move steps over a history that starts non-empty and within
the cap retains exactly the last 100 of all samples seen, in order. -/
theorem foldl_handleMouseMove (ys : List Sample) :
    ∀ h : List Sample, 0 < h.length → h.length ≤ 100 →
      List.foldl handleMouseMove h ys = (h ++ ys).drop ((h ++ ys).length - 100) := by
  induction ys with
  | nil =>
    intro h h0 h100
    simp [Nat.sub_eq_zero_of_le, h100]
  | cons y ys ih =>
    intro h h0 h100
    rw [List.foldl_cons]
    by_cases hc : 100 < h.length + 1
    · have hm : handleMouseMove h y = (h ++ [y]).drop 1 := by
        simp only [handleMouseMove]
        rw [if_pos h0, if_pos (by simp [List.length_append]; omega)]
        simp [List.drop_one]
      have hg1 : (0 : ℕ) < ((h ++ [y]).drop 1).length := by
        simp [List.length_append]
        omega
      have hg2 : ((h ++ [y]).drop 1).length ≤ 100 := by
        simp [List.length_append]
        omega
      rw [hm, ih _ hg1 hg2]
      have e1 : (h ++ [y]).drop 1 ++ ys = (h ++ y :: ys).drop 1 := by
        rw [List.drop_append_of_le_length (by omega),
          List.drop_append_of_le_length (by omega)]
        simp
      rw [e1, List.drop_drop]
      congr 1
      simp [List.length_append, List.length_drop]
      omega
    · have hm : handleMouseMove h y = h ++ [y] := by
        simp only [handleMouseMove]
        rw [if_pos h0, if_neg (by simp [List.length_append]; omega)]
      rw [hm, ih (h ++ [y]) (by simp) (by simp [List.length_append]; omega)]
      have hL : (h ++ [y]) ++ ys = h ++ y :: ys := by simp
      rw [hL]

/-- C7: the pointer history is a bounded FIFO buffer: one step never grows it
past 100 samples, and feeding any stream of samples (the first via mouse-down,
the rest via mouse-move) retains exactly the most recent 100 in arrival
order; in particular 150 samples leave the last 100, the oldest 50 evicted. -/
theorem C7_bounded_history :
    (∀ (h : List Sample) (s : Sample), h.length ≤ 100 →
      (handleMouseMove h s).length ≤ 100) ∧
    (∀ (s0 : Sample) (ys : List Sample),
      List.foldl handleMouseMove (handleMouseStart s0) ys =
        (s0 :: ys).drop ((s0 :: ys).length - 100)) ∧
    (∀ (s0 : Sample) (ys : List Sample), ys.length = 149 →
      List.foldl handleMouseMove (handleMouseStart s0) ys = (s0 :: ys).drop 50 ∧
      (List.foldl handleMouseMove (handleMouseStart s0) ys).length = 100) := by
  refine ⟨handleMouseMove_length_le, ?_, ?_⟩
  · intro s0 ys
    have := foldl_handleMouseMove ys [s0] (by simp) (by simp)
    simpa using this
  · intro s0 ys hlen
    have h := foldl_handleMouseMove ys [s0] (by simp) (by simp)
    simp only [handleMouseStart]
    constructor
    · rw [h]
      simp [hlen]
    · rw [h]
      simp [hlen]

/-- Witness for C7 at a concrete buffer and a concrete 149-sample stream. -/
theorem C7_bounded_history_witness :
    (([⟨0, 0, 0, 1⟩] : List Sample).length ≤ 100 ∧
      (handleMouseMove [⟨0, 0, 0, 1⟩] ⟨1, 1, 1, 1⟩).length ≤ 100) ∧
    (((List.range 149).map (fun (k : ℕ) => (⟨(k : ℝ), 0, (k : ℝ), 1⟩ : Sample))).length = 149 ∧
      List.foldl handleMouseMove (handleMouseStart ⟨0, 0, 0, 1⟩)
          ((List.range 149).map (fun (k : ℕ) => (⟨(k : ℝ), 0, (k : ℝ), 1⟩ : Sample))) =
        ((⟨0, 0, 0, 1⟩ : Sample) ::
          (List.range 149).map (fun (k : ℕ) => (⟨(k : ℝ), 0, (k : ℝ), 1⟩ : Sample))).drop 50) :=
  ⟨⟨by simp, C7_bounded_history.1 _ _ (by simp)⟩,
   ⟨by rw [List.length_map, List.length_range],
    (C7_bounded_history.2.2 _ _ (by rw [List.length_map, List.length_range])).1⟩⟩

/-- C2 counterexample: registering a second gesture named "delete" before the
first is removed raises no error; the registry afterwards holds exactly the
second registration, the first having been silently replaced. -/
theorem C2_duplicate_silently_overwrites :
    registerPattern
        (registerPattern [] ("delete") .swipe { minDistance := 50 })
        ("delete") .mouse_circle { radius := 40 } =
      [(("delete"), ⟨.mouse_circle, { radius := 40 }, [], [], 100, 0, false,
        ⟨0, 0, 0⟩⟩)] := by
  rfl

/-- C2 amended: registerPattern never fails; it binds the name to a fresh
registration record, silently overwriting any registration already stored
under that name, while every other name keeps its binding. -/
theorem C2_register_overwrites (r : Registry) (name k : String)
    (type : PatternType) (options : GestureOptions) :
    mapGet (registerPattern r name type options) name =
      some ⟨type, options, [], [], 100, 0, false, ⟨0, 0, 0⟩⟩ ∧
    (k ≠ name → mapGet (registerPattern r name type options) k = mapGet r k) :=
  ⟨mapGet_mapSet_self r name _, fun h => mapGet_mapSet_ne r name k _ h⟩

/-- Witness for C2 amended at a concrete registry and names. -/
theorem C2_register_overwrites_witness :
    ("other" : String) ≠ ("delete") ∧
      mapGet (registerPattern [] ("delete") .swipe {}) ("other") =
        mapGet ([] : Registry) ("other") :=
  ⟨by decide, (C2_register_overwrites [] ("delete") ("other") .swipe {}).2 (by decide)⟩

/-- A firing inside the cooldown window returns with no state change, no
statistics update and no handler invocation. -/
theorem triggerGesture_suppressed (p : PatternState) (name : String) (now : ℝ)
    (result : DetectionResult) (h : now - p.lastTriggered < p.cooldown) :
    triggerGesture p name now result = (p, false, []) := by
  simp only [triggerGesture, if_pos h]

/-- A firing outside the cooldown window updates lastTriggered and the stats
and invokes every handler. -/
theorem triggerGesture_fires (p : PatternState) (name : String) (now : ℝ)
    (result : DetectionResult) (h : ¬(now - p.lastTriggered < p.cooldown)) :
    triggerGesture p name now result =
      ({ p with lastTriggered := now, stats := triggerStats p result }, true,
        p.handlers.map (fun hd => hd (triggerEvent p name now result))) := by
  simp only [triggerGesture, if_neg h]

/-- C4: when a registration's pattern matches at t1 (its cooldown having
expired) and again at t2 with t2 - t1 below the cooldown, the handlers fire
at t1 with lastTriggered and the statistics updated; the firing at t2 is
fully suppressed, returning the state unchanged (no lastTriggered or
statistics update) and invoking no handler; and a later tick fires exactly
when its time is at least lastTriggered plus the cooldown. -/
theorem C4_cooldown_monotonic (p : PatternState) (name : String) (t1 t2 : ℝ)
    (r1 r2 : DetectionResult)
    (h1 : p.cooldown ≤ t1 - p.lastTriggered) (h12 : t2 - t1 < p.cooldown) :
    (triggerGesture p name t1 r1).2.1 = true ∧
    (triggerGesture p name t1 r1).2.2 =
      p.handlers.map (fun h => h (triggerEvent p name t1 r1)) ∧
    (triggerGesture p name t1 r1).1.lastTriggered = t1 ∧
    (triggerGesture p name t1 r1).1.stats = triggerStats p r1 ∧
    (triggerGesture (triggerGesture p name t1 r1).1 name t2 r2 =
      ((triggerGesture p name t1 r1).1, false, [])) ∧
    (∀ (t3 : ℝ) (r3 : DetectionResult),
      (triggerGesture (triggerGesture p name t1 r1).1 name t3 r3).2.1 = true ↔
        p.cooldown ≤ t3 - t1) := by
  have hfire : ¬(t1 - p.lastTriggered < p.cooldown) := not_lt.mpr h1
  rw [triggerGesture_fires p name t1 r1 hfire]
  refine ⟨rfl, rfl, rfl, rfl, ?_, ?_⟩
  · exact triggerGesture_suppressed _ name t2 r2 h12
  · intro t3 r3
    by_cases h3 : t3 - t1 < p.cooldown
    · rw [triggerGesture_suppressed _ name t3 r3 h3]
      exact iff_of_false (by simp) (not_le.mpr h3)
    · rw [triggerGesture_fires _ name t3 r3 h3]
      exact iff_of_true rfl (not_lt.mp h3)

/-- Witness for C4 at a concrete registration (cooldown 100, registered at
time 0) with ticks at 100 and 150. -/
theorem C4_cooldown_monotonic_witness :
    ((⟨.swipe, {}, [], [], 100, 0, false, ⟨0, 0, 0⟩⟩ : PatternState).cooldown ≤
      100 - (⟨.swipe, {}, [], [], 100, 0, false, ⟨0, 0, 0⟩⟩ : PatternState).lastTriggered) ∧
    ((150 : ℝ) - 100 < (⟨.swipe, {}, [], [], 100, 0, false, ⟨0, 0, 0⟩⟩ : PatternState).cooldown) ∧
    (triggerGesture ⟨.swipe, {}, [], [], 100, 0, false, ⟨0, 0, 0⟩⟩ ("g") 100 {}).2.1 = true :=
  ⟨by norm_num, by norm_num,
    (C4_cooldown_monotonic ⟨.swipe, {}, [], [], 100, 0, false, ⟨0, 0, 0⟩⟩ ("g") 100 150 {} {}
      (by norm_num) (by norm_num)).1⟩

/-- A successful lookup means the binding is an entry of the list. -/
theorem mapGet_mem {α : Type _} (m : List (String × α)) (k : String) (v : α)
    (h : mapGet m k = some v) : (k, v) ∈ m := by
  induction m with
  | nil => simp [mapGet] at h
  | cons e rest ih =>
    obtain ⟨k2, v2⟩ := e
    by_cases h2 : k2 = k
    · subst h2
      simp [mapGet] at h
      simp [h]
    · simp [mapGet, h2] at h
      exact List.mem_cons_of_mem _ (ih h)

/-- An element added to a JS Set is a member afterwards. -/
theorem mem_setAdd_self (s : List HandlerRef) (a : HandlerRef) : a ∈ setAdd s a := by
  unfold setAdd
  split_ifs with h
  · exact h
  · simp

/-- A user function is never a member of a set holding only wrappers. -/
theorem user_not_mem (s : List HandlerRef) (uid : ℕ)
    (h : ∀ r ∈ s, ∃ i, r = HandlerRef.wrapped i) : HandlerRef.user uid ∉ s := by
  intro hmem
  obtain ⟨i, hi⟩ := h _ hmem
  simp at hi

/-- Adding a wrapper to a wrappers-only set keeps it wrappers-only. -/
theorem setAdd_wrapped (s : List HandlerRef) (j : ℕ)
    (h : ∀ r ∈ s, ∃ i, r = HandlerRef.wrapped i) :
    ∀ r ∈ setAdd s (HandlerRef.wrapped j), ∃ i, r = HandlerRef.wrapped i := by
  intro r hr
  unfold setAdd at hr
  split_ifs at hr with hmem
  · exact h r hr
  · rcases List.mem_append.mp hr with hr | hr
    · exact h r hr
    · exact ⟨j, by simpa using hr⟩

/-- Unfolding of EventRegistry.off when the event key is present. -/
theorem offEvent_some (st : EventRegistry.State) (ev : String) (h : HandlerRef)
    (s : List HandlerRef) (hg : mapGet st.listeners ev = some s) :
    EventRegistry.offEvent st ev h =
      (⟨if (s.erase h).isEmpty then mapDelete st.listeners ev
          else mapSet st.listeners ev (s.erase h),
        st.nextWrapId,
        if decide (h ∈ s) then st.activeListeners - 1 else st.activeListeners⟩,
       decide (h ∈ s)) := by
  unfold EventRegistry.offEvent
  rw [hg]

/-- C10: after subscribing with EventRegistry.on, calling off with the
originally supplied handler returns false and leaves the state (hence the
subscription) unchanged, because on stored a fresh wrapper, not the original;
the stored wrapper is a member of the event's listener set, and off succeeds
exactly when given that wrapper, which is what the returned unsubscribe
closure passes. -/
theorem C10_off_original_is_noop (st : EventRegistry.State) (ev : String) (uid : ℕ)
    (hwf : EventRegistry.Wf st) :
    (EventRegistry.offEvent (EventRegistry.onEvent st ev (.user uid)).1 ev (.user uid) =
      ((EventRegistry.onEvent st ev (.user uid)).1, false)) ∧
    (∃ s, mapGet (EventRegistry.onEvent st ev (.user uid)).1.listeners ev = some s ∧
      (EventRegistry.onEvent st ev (.user uid)).2 ∈ s) ∧
    ((EventRegistry.offEvent (EventRegistry.onEvent st ev (.user uid)).1 ev
        (EventRegistry.onEvent st ev (.user uid)).2).2 = true) := by
  have main : ∀ (L : List (String × List HandlerRef)) (cur : List HandlerRef),
      (∀ r ∈ cur, ∃ i, r = HandlerRef.wrapped i) →
      EventRegistry.onEvent st ev (.user uid) =
        (⟨mapSet L ev (setAdd cur (.wrapped st.nextWrapId)),
          st.nextWrapId + 1, st.activeListeners + 1⟩, .wrapped st.nextWrapId) →
      ((EventRegistry.offEvent (EventRegistry.onEvent st ev (.user uid)).1 ev (.user uid) =
          ((EventRegistry.onEvent st ev (.user uid)).1, false)) ∧
        (∃ s, mapGet (EventRegistry.onEvent st ev (.user uid)).1.listeners ev = some s ∧
          (EventRegistry.onEvent st ev (.user uid)).2 ∈ s) ∧
        ((EventRegistry.offEvent (EventRegistry.onEvent st ev (.user uid)).1 ev
            (EventRegistry.onEvent st ev (.user uid)).2).2 = true)) := by
    intro L cur hcur e_on
    rw [e_on]
    set w := HandlerRef.wrapped st.nextWrapId with hw
    set s2 := setAdd cur w with hs2
    have g : mapGet (mapSet L ev s2) ev = some s2 := mapGet_mapSet_self L ev s2
    have hwin : w ∈ s2 := mem_setAdd_self cur w
    have hnotin : HandlerRef.user uid ∉ s2 :=
      user_not_mem s2 uid (setAdd_wrapped cur st.nextWrapId hcur)
    have hne : s2 ≠ [] := List.ne_nil_of_mem hwin
    have hie : s2.isEmpty = false := by
      cases h : s2 with
      | nil => exact absurd h hne
      | cons a l => rfl
    refine ⟨?_, ⟨s2, g, hwin⟩, ?_⟩
    · rw [offEvent_some _ ev _ s2 g]
      rw [List.erase_of_not_mem hnotin, hie]
      simp only [decide_eq_false hnotin, if_neg (by simp : ¬(false = true))]
      rw [mapSet_eq_self _ _ _ g]
    · rw [offEvent_some _ ev _ s2 g]
      simpa using hwin
  rcases hg0 : mapGet st.listeners ev with _ | s0
  · refine main (mapSet st.listeners ev []) [] (by simp) ?_
    unfold EventRegistry.onEvent
    rw [hg0]
    simp [mapGet_mapSet_self]
  · refine main st.listeners s0 (fun r hr => hwf _ (mapGet_mem _ _ _ hg0) r hr) ?_
    unfold EventRegistry.onEvent
    rw [hg0]
    simp [hg0]

/-- Witness for C10 at the empty registry, event name click, user handler 0. -/
theorem C10_off_original_is_noop_witness :
    EventRegistry.Wf ⟨[], 0, 0⟩ ∧
      (EventRegistry.offEvent
          (EventRegistry.onEvent ⟨[], 0, 0⟩ ("click") (.user 0)).1 ("click") (.user 0) =
        ((EventRegistry.onEvent ⟨[], 0, 0⟩ ("click") (.user 0)).1, false)) :=
  ⟨by intro e he; simp at he,
    (C10_off_original_is_noop ⟨[], 0, 0⟩ ("click") 0 (by intro e he; simp at he)).1⟩

/-- An inactive registration is skipped with no evaluation. -/
theorem analyzeOne_inactive (now : ℝ) (mouse : List Sample) (touch : List TouchPoint)
    (e : String × PatternState) (h : e.2.active = false) :
    analyzeOne now mouse touch e = Except.ok (e, ⟨e.1, false, []⟩) := by
  simp [analyzeOne, h]

/-- An active registration whose detector throws aborts its processing with
that exception. -/
theorem analyzeOne_error (now : ℝ) (mouse : List Sample) (touch : List TouchPoint)
    (name : String) (p : PatternState) (msg : String) (hact : p.active = true)
    (heval : evalPattern p mouse touch = Except.error msg) :
    analyzeOne now mouse touch (name, p) = Except.error msg := by
  unfold analyzeOne
  rw [if_neg (by simp [hact])]
  rw [heval]

/-- A registration whose detector returns normally is processed without an
exception. -/
theorem analyzeOne_ok (now : ℝ) (mouse : List Sample) (touch : List TouchPoint)
    (e : String × PatternState)
    (h : e.2.active = true → ∃ r, evalPattern e.2 mouse touch = Except.ok r) :
    ∃ v, analyzeOne now mouse touch e = Except.ok v := by
  unfold analyzeOne
  by_cases ha : e.2.active = false
  · rw [if_pos ha]
    exact ⟨_, rfl⟩
  · obtain ⟨r, hr⟩ := h (by revert ha; cases e.2.active <;> simp)
    rw [if_neg ha, hr]
    dsimp only
    split_ifs
    · exact ⟨_, rfl⟩
    · exact ⟨_, rfl⟩

/-- An active, firing registration produces the updated state and one outcome
per handler. -/
theorem analyzeOne_fired (now : ℝ) (mouse : List Sample) (touch : List TouchPoint)
    (name : String) (p : PatternState) (res : DetectionResult)
    (hact : p.active = true) (heval : evalPattern p mouse touch = Except.ok res)
    (hm : res.isMatch = true) (hc : checkConditions p = true)
    (hcool : ¬(now - p.lastTriggered < p.cooldown)) :
    analyzeOne now mouse touch (name, p) =
      Except.ok ((name, { p with lastTriggered := now, stats := triggerStats p res }),
        ⟨name, true, p.handlers.map (fun h => h (triggerEvent p name now res))⟩) := by
  unfold analyzeOne
  rw [if_neg (by simp [hact])]
  rw [heval]
  dsimp only
  rw [if_pos (show (res.isMatch && checkConditions p) = true by simp [hm, hc])]
  rw [triggerGesture_fires p name now res hcool]

/-- A tick over registrations whose detectors all return normally completes
without an exception. -/
theorem analyze_ok (now : ℝ) (mouse : List Sample) (touch : List TouchPoint)
    (l : Registry)
    (h : ∀ e ∈ l, e.2.active = true → ∃ r, evalPattern e.2 mouse touch = Except.ok r) :
    ∃ sts tr, analyzeActiveGestures now mouse touch l = Except.ok (sts, tr) := by
  induction l with
  | nil => exact ⟨[], [], rfl⟩
  | cons e rest ih =>
    obtain ⟨v, hv⟩ := analyzeOne_ok now mouse touch e (h e (List.mem_cons_self e rest))
    obtain ⟨sts, tr, hrest⟩ := ih (fun e2 he2 => h e2 (List.mem_cons_of_mem e he2))
    refine ⟨v.1 :: sts, v.2 :: tr, ?_⟩
    unfold analyzeActiveGestures
    rw [hv, hrest]

/-- C5: when a firing registration has a throwing handler, the exception is
contained in that handler's own outcome: every remaining handler of the same
registration still receives the event, the tick completes, and every later
registration is processed exactly as it would be on its own. -/
theorem C5_handler_isolation (now : ℝ) (mouse : List Sample) (touch : List TouchPoint)
    (pre post : Registry) (name : String) (p : PatternState)
    (hs1 hs2 : List Handler) (hbad : Handler) (msg : String) (res : DetectionResult)
    (hact : p.active = true)
    (heval : evalPattern p mouse touch = Except.ok res)
    (hm : res.isMatch = true)
    (hc : checkConditions p = true)
    (hcool : p.cooldown ≤ now - p.lastTriggered)
    (hhs : p.handlers = hs1 ++ hbad :: hs2)
    (hthrow : hbad (triggerEvent p name now res) = Except.error msg)
    (hok : ∀ e ∈ pre ++ post, e.2.active = true →
      ∃ r, evalPattern e.2 mouse touch = Except.ok r) :
    ∃ (preR postR : Registry) (preT postT : List TickEntry),
      analyzeActiveGestures now mouse touch (pre ++ (name, p) :: post) =
        Except.ok
          (preR ++ (name, { p with lastTriggered := now, stats := triggerStats p res })
            :: postR,
           preT ++ (⟨name, true,
             hs1.map (fun h => h (triggerEvent p name now res)) ++
               Except.error msg :: hs2.map (fun h => h (triggerEvent p name now res))⟩ :
               TickEntry) :: postT) ∧
      analyzeActiveGestures now mouse touch post = Except.ok (postR, postT) := by
  obtain ⟨postR, postT, hpost⟩ :=
    analyze_ok now mouse touch post (fun e he => hok e (by simp [he]))
  have hA : analyzeOne now mouse touch (name, p) =
      Except.ok ((name, { p with lastTriggered := now, stats := triggerStats p res }),
        ⟨name, true,
          hs1.map (fun h => h (triggerEvent p name now res)) ++
            Except.error msg :: hs2.map (fun h => h (triggerEvent p name now res))⟩) := by
    rw [analyzeOne_fired now mouse touch name p res hact heval hm hc (not_lt.mpr hcool)]
    rw [hhs]
    simp [hthrow]
  have hpre : ∀ e ∈ pre, e.2.active = true →
      ∃ r, evalPattern e.2 mouse touch = Except.ok r :=
    fun e he => hok e (List.mem_append_left post he)
  clear hok
  revert hpre
  induction pre with
  | nil =>
    intro _
    refine ⟨[], postR, [], postT, ?_, hpost⟩
    simp only [List.nil_append]
    unfold analyzeActiveGestures
    rw [hA, hpost]
  | cons e pre2 ih =>
    intro hpre
    obtain ⟨v, hv⟩ :=
      analyzeOne_ok now mouse touch e (hpre e (List.mem_cons_self e pre2))
    obtain ⟨preR, postR2, preT, postT2, hmain, hpost2⟩ :=
      ih (fun e2 he2 => hpre e2 (List.mem_cons_of_mem e he2))
    refine ⟨v.1 :: preR, postR2, v.2 :: preT, postT2, ?_, hpost2⟩
    simp only [List.cons_append]
    unfold analyzeActiveGestures
    rw [hv, hmain]

/-- Witness for C5: registration A fires with a throwing first handler and a
second handler; registration B follows and is processed normally. -/
theorem C5_handler_isolation_witness :
    (evalPattern regA [] [] = Except.ok { isMatch := true }) ∧
    (∃ (preR postR : Registry) (preT postT : List TickEntry),
      analyzeActiveGestures 0 [] [] ([] ++ (("A"), regA) :: [(("B"), regB)]) =
        Except.ok
          (preR ++ (("A"),
            { regA with
                lastTriggered := 0
                stats := triggerStats regA ({ isMatch := true }) }) :: postR,
           preT ++ (⟨("A"), true,
             ([] : List Handler).map
                 (fun h => h (triggerEvent regA ("A") 0 { isMatch := true })) ++
               Except.error ("boom") :: ([okHandler] : List Handler).map
                 (fun h => h (triggerEvent regA ("A") 0 { isMatch := true }))⟩ :
                 TickEntry) :: postT) ∧
      analyzeActiveGestures 0 [] [] [(("B"), regB)] = Except.ok (postR, postT)) :=
  ⟨rfl,
    C5_handler_isolation 0 [] [] [] [(("B"), regB)] ("A") regA [] [okHandler]
      throwingHandler ("boom") { isMatch := true }
      rfl rfl rfl rfl (by norm_num [regA]) rfl rfl
      (by intro e he; simp at he; subst he; exact fun _ => ⟨_, rfl⟩)⟩

/-- C6 counterexample: a throwing custom detector in registration A makes the
whole tick fail with that exception; registration B, although active and
matching, is never evaluated: its handler outcome appears in no trace. -/
theorem C6_custom_throw_aborts_tick_counterexample :
    analyzeActiveGestures 0 [] [] [(("A"), regThrow), (("B"), regB)] =
      Except.error ("boom") := by
  rfl

/-- C6 amended: an exception from a custom detector is not caught by the
dispatcher; it propagates out of the detection pass, so the registrations
after the throwing one in the same tick are not evaluated at all, exactly as
an exception aborts the forEach of the source. -/
theorem C6_detector_throw_aborts_tick (now : ℝ) (mouse : List Sample)
    (touch : List TouchPoint) (pre : Registry) (name : String) (p : PatternState)
    (rest : Registry) (msg : String)
    (hpre : ∀ e ∈ pre, e.2.active = true →
      ∃ r, evalPattern e.2 mouse touch = Except.ok r)
    (hact : p.active = true)
    (heval : evalPattern p mouse touch = Except.error msg) :
    analyzeActiveGestures now mouse touch (pre ++ (name, p) :: rest) =
      Except.error msg := by
  revert hpre
  induction pre with
  | nil =>
    intro _
    simp only [List.nil_append]
    unfold analyzeActiveGestures
    rw [analyzeOne_error now mouse touch name p msg hact heval]
  | cons e pre2 ih =>
    intro hpre
    obtain ⟨v, hv⟩ :=
      analyzeOne_ok now mouse touch e (hpre e (List.mem_cons_self e pre2))
    simp only [List.cons_append]
    unfold analyzeActiveGestures
    rw [hv, ih (fun e2 he2 => hpre e2 (List.mem_cons_of_mem e he2))]

/-- Witness for C6 amended: the throwing registration placed after one
healthy registration aborts the tick. -/
theorem C6_detector_throw_aborts_tick_witness :
    (regThrow.active = true) ∧
      (evalPattern regThrow [] [] = Except.error ("boom")) ∧
      analyzeActiveGestures 0 [] [] ([(("B"), regB)] ++ (("A"), regThrow) :: []) =
        Except.error ("boom") :=
  ⟨rfl, rfl,
    C6_detector_throw_aborts_tick 0 [] [] [(("B"), regB)] ("A") regThrow [] ("boom")
      (by intro e he; simp at he; subst he; exact fun _ => ⟨_, rfl⟩) rfl rfl⟩

/-- C8: activating a registered 3-step sequence pattern makes the very next
detection tick throw, because analyzeActiveGestures calls
this.analyzeSequence, a method defined nowhere in the repository; the
sequence machinery the specification describes cannot run at all. -/
theorem C8_sequence_analysis_throws :
    analyzeActiveGestures 0 [] []
        (startDetection
          (registerSequencePattern [] ("combo") [("A"), ("B"), ("C")])) =
      Except.error ("TypeError: this.analyzeSequence is not a function") := by
  rfl

/-- Truncation toward zero vanishes strictly between -1 and 1. -/
theorem jsTrunc_eq_zero (x : ℝ) (h1 : -1 < x) (h2 : x < 1) : jsTrunc x = 0 := by
  unfold jsTrunc
  split_ifs with h
  · exact Int.floor_eq_zero_iff.mpr ⟨h, h2⟩
  · exact Int.ceil_eq_zero_iff.mpr ⟨h1, le_of_lt (lt_of_not_ge h)⟩

/-- Truncation toward zero is one on [1, 2). -/
theorem jsTrunc_eq_one (x : ℝ) (h1 : 1 ≤ x) (h2 : x < 2) : jsTrunc x = 1 := by
  unfold jsTrunc
  rw [if_pos (le_trans zero_le_one h1)]
  rw [Int.floor_eq_iff]
  constructor
  · exact_mod_cast h1
  · push_cast
    linarith

/-- The JS remainder by 360 is the identity strictly inside (-360, 360). -/
theorem jsFmod_eq_self (a : ℝ) (h1 : -360 < a) (h2 : a < 360) : jsFmod a 360 = a := by
  unfold jsFmod
  rw [jsTrunc_eq_zero (a / 360) (by linarith) (by linarith)]
  simp

/-- Normalisation leaves a nonnegative angle of at most 180 degrees alone. -/
theorem jsNormalize_of_nonneg (a : ℝ) (h0 : 0 ≤ a) (h1 : a ≤ 180) :
    jsNormalize a = a := by
  unfold jsNormalize
  rw [jsFmod_eq_self a (by linarith) (by linarith)]
  unfold jsFmod
  rw [jsTrunc_eq_one ((a + 360) / 360) (by linarith) (by linarith)]
  push_cast
  ring

/-- Normalisation shifts a negative angle above -180 degrees up by one turn. -/
theorem jsNormalize_of_neg (a : ℝ) (h0 : a < 0) (h1 : -180 < a) :
    jsNormalize a = a + 360 := by
  unfold jsNormalize
  rw [jsFmod_eq_self a (by linarith) (by linarith)]
  unfold jsFmod
  rw [jsTrunc_eq_zero ((a + 360) / 360) (by linarith) (by linarith)]
  simp

/-- Bucket characterisation of angleToDirection on the atan2 output range
(-180, 180]: right on [-45, 45), down on [45, 135), left on [135, 180] and
(-180, -135), up on [-135, -45). -/
theorem angleToDirection_spec (a : ℝ) (hlo : -180 < a) (hhi : a ≤ 180) :
    (angleToDirection a = .right ↔ (-45 ≤ a ∧ a < 45)) ∧
    (angleToDirection a = .down ↔ (45 ≤ a ∧ a < 135)) ∧
    (angleToDirection a = .left ↔ (135 ≤ a ∨ a < -135)) ∧
    (angleToDirection a = .up ↔ (-135 ≤ a ∧ a < -45)) := by
  by_cases h0 : 0 ≤ a
  · have hn : jsNormalize a = a := jsNormalize_of_nonneg a h0 hhi
    by_cases hb1 : a < 45
    · have e : angleToDirection a = .right := by
        unfold angleToDirection
        rw [hn, if_pos (Or.inl hb1)]
      rw [e]
      exact ⟨iff_of_true rfl ⟨by linarith, hb1⟩,
        iff_of_false (by simp) (by rintro ⟨h1, h2⟩; linarith),
        iff_of_false (by simp) (by rintro (h1 | h1) <;> linarith),
        iff_of_false (by simp) (by rintro ⟨h1, h2⟩; linarith)⟩
    · by_cases hb2 : a < 135
      · have e : angleToDirection a = .down := by
          unfold angleToDirection
          rw [hn, if_neg (by rintro (h1 | h1) <;> linarith), if_pos hb2]
        rw [e]
        exact ⟨iff_of_false (by simp) (by rintro ⟨h1, h2⟩; linarith),
          iff_of_true rfl ⟨by linarith, hb2⟩,
          iff_of_false (by simp) (by rintro (h1 | h1) <;> linarith),
          iff_of_false (by simp) (by rintro ⟨h1, h2⟩; linarith)⟩
      · have e : angleToDirection a = .left := by
          unfold angleToDirection
          rw [hn, if_neg (by rintro (h1 | h1) <;> linarith), if_neg (by linarith),
            if_pos (by linarith)]
        rw [e]
        exact ⟨iff_of_false (by simp) (by rintro ⟨h1, h2⟩; linarith),
          iff_of_false (by simp) (by rintro ⟨h1, h2⟩; linarith),
          iff_of_true rfl (Or.inl (by linarith)),
          iff_of_false (by simp) (by rintro ⟨h1, h2⟩; linarith)⟩
  · push_neg at h0
    have hn : jsNormalize a = a + 360 := jsNormalize_of_neg a h0 hlo
    by_cases hb1 : -45 ≤ a
    · have e : angleToDirection a = .right := by
        unfold angleToDirection
        rw [hn, if_pos (Or.inr (by linarith))]
      rw [e]
      exact ⟨iff_of_true rfl ⟨hb1, by linarith⟩,
        iff_of_false (by simp) (by rintro ⟨h1, h2⟩; linarith),
        iff_of_false (by simp) (by rintro (h1 | h1) <;> linarith),
        iff_of_false (by simp) (by rintro ⟨h1, h2⟩; linarith)⟩
    · push_neg at hb1
      by_cases hb2 : a < -135
      · have e : angleToDirection a = .left := by
          unfold angleToDirection
          rw [hn, if_neg (by rintro (h1 | h1) <;> linarith), if_neg (by linarith),
            if_pos (by linarith)]
        rw [e]
        exact ⟨iff_of_false (by simp) (by rintro ⟨h1, h2⟩; linarith),
          iff_of_false (by simp) (by rintro ⟨h1, h2⟩; linarith),
          iff_of_true rfl (Or.inr hb2),
          iff_of_false (by simp) (by rintro ⟨h1, h2⟩; linarith)⟩
      · push_neg at hb2
        have e : angleToDirection a = .up := by
          unfold angleToDirection
          rw [hn, if_neg (by rintro (h1 | h1) <;> linarith), if_neg (by linarith),
            if_neg (by linarith)]
        rw [e]
        exact ⟨iff_of_false (by simp) (by rintro ⟨h1, h2⟩; linarith),
          iff_of_false (by simp) (by rintro ⟨h1, h2⟩; linarith),
          iff_of_false (by simp) (by rintro (h1 | h1) <;> linarith),
          iff_of_true rfl ⟨hb2, by linarith⟩⟩

/-- The atan2-based angle in degrees always lies in (-180, 180]. -/
theorem calculateAngle_range (s f : Sample) :
    -180 < calculateAngle s f ∧ calculateAngle s f ≤ 180 := by
  unfold calculateAngle atan2
  have hpi : (0 : ℝ) < Real.pi := Real.pi_pos
  have hpos : (0 : ℝ) < 180 / Real.pi := by positivity
  constructor
  · have h := Complex.neg_pi_lt_arg ⟨f.x - s.x, f.y - s.y⟩
    have key := mul_lt_mul_of_pos_right h hpos
    have e1 : -Real.pi * (180 / Real.pi) = -180 := by
      field_simp
      ring
    have e2 : Complex.arg ⟨f.x - s.x, f.y - s.y⟩ * (180 / Real.pi) =
        Complex.arg ⟨f.x - s.x, f.y - s.y⟩ * 180 / Real.pi := by ring
    rw [e1, e2] at key
    exact key
  · have h := Complex.arg_le_pi ⟨f.x - s.x, f.y - s.y⟩
    have key := mul_le_mul_of_nonneg_right h (le_of_lt hpos)
    have e1 : Real.pi * (180 / Real.pi) = 180 := by
      field_simp
    have e2 : Complex.arg ⟨f.x - s.x, f.y - s.y⟩ * (180 / Real.pi) =
        Complex.arg ⟨f.x - s.x, f.y - s.y⟩ * 180 / Real.pi := by ring
    rw [e1, e2] at key
    exact key

/-- Splitting a sum over an initial segment at an intermediate index. -/
theorem sum_range_split (f : ℕ → ℝ) (m n : ℕ) :
    ∑ k in Finset.range (m + n), f k =
      (∑ k in Finset.range m, f k) + ∑ k in Finset.range n, f (m + k) := by
  induction n with
  | zero => simp
  | succ n ih =>
    rw [Nat.add_succ, Finset.sum_range_succ, ih, Finset.sum_range_succ]
    ring

/-- A mapped range list sums like the corresponding finite sum. -/
theorem list_range_map_sum (f : ℕ → ℝ) (n : ℕ) :
    ((List.range n).map f).sum = ∑ k in Finset.range n, f k := by
  induction n with
  | zero => simp
  | succ n ih =>
    rw [List.range_succ]
    simp [ih, Finset.sum_range_succ]

/-- Advancing eight sixteenths of a turn negates the cosine. -/
theorem cos_half_turn (x : ℝ) :
    Real.cos (2 * Real.pi * (8 + x) / 16) = -Real.cos (2 * Real.pi * x / 16) := by
  have h : 2 * Real.pi * (8 + x) / 16 = 2 * Real.pi * x / 16 + Real.pi := by ring
  rw [h, Real.cos_add_pi]

/-- Advancing eight sixteenths of a turn negates the sine. -/
theorem sin_half_turn (x : ℝ) :
    Real.sin (2 * Real.pi * (8 + x) / 16) = -Real.sin (2 * Real.pi * x / 16) := by
  have h : 2 * Real.pi * (8 + x) / 16 = 2 * Real.pi * x / 16 + Real.pi := by ring
  rw [h, Real.sin_add_pi]

/-- The cosines of sixteen evenly spaced angles cancel in pairs. -/
theorem sum_cos_sixteenth :
    ∑ k in Finset.range 16, Real.cos (2 * Real.pi * k / 16) = 0 := by
  rw [show (16 : ℕ) = 8 + 8 from rfl, sum_range_split]
  have e2 : (∑ k in Finset.range 8, Real.cos (2 * Real.pi * ((8 + k : ℕ) : ℝ) / 16)) =
      ∑ k in Finset.range 8, -Real.cos (2 * Real.pi * (k : ℝ) / 16) :=
    Finset.sum_congr rfl (fun k _ => by push_cast; exact cos_half_turn _)
  rw [e2, Finset.sum_neg_distrib]
  ring

/-- The sines of sixteen evenly spaced angles cancel in pairs. -/
theorem sum_sin_sixteenth :
    ∑ k in Finset.range 16, Real.sin (2 * Real.pi * k / 16) = 0 := by
  rw [show (16 : ℕ) = 8 + 8 from rfl, sum_range_split]
  have e2 : (∑ k in Finset.range 8, Real.sin (2 * Real.pi * ((8 + k : ℕ) : ℝ) / 16)) =
      ∑ k in Finset.range 8, -Real.sin (2 * Real.pi * (k : ℝ) / 16) :=
    Finset.sum_congr rfl (fun k _ => by push_cast; exact sin_half_turn _)
  rw [e2, Finset.sum_neg_distrib]
  ring

/-- The centroid fold accumulates the coordinate sums. -/
theorem centroid_fold (l : List Sample) : ∀ acc : Pt,
    l.foldl (fun (acc : Pt) p => ⟨acc.x + p.x, acc.y + p.y⟩) acc =
      ⟨acc.x + (l.map Sample.x).sum, acc.y + (l.map Sample.y).sum⟩ := by
  induction l with
  | nil =>
    intro acc
    simp
  | cons p rest ih =>
    intro acc
    rw [List.foldl_cons, ih]
    simp only [List.map_cons, List.sum_cons, Pt.mk.injEq]
    constructor <;> ring

/-- calculateCentroid is the pair of mean coordinates. -/
theorem calculateCentroid_eq (l : List Sample) :
    calculateCentroid l =
      ⟨(l.map Sample.x).sum / l.length, (l.map Sample.y).sum / l.length⟩ := by
  unfold calculateCentroid
  rw [centroid_fold]
  simp

/-- The sixteen demo samples have x coordinates summing to 1600. -/
theorem circleDemo_sum_x : (circleDemoPoints.map Sample.x).sum = 1600 := by
  unfold circleDemoPoints
  rw [List.map_map]
  rw [show (Sample.x ∘ fun (k : ℕ) =>
      (⟨100 + 50 * Real.cos (2 * Real.pi * (k : ℝ) / 16),
        100 + 50 * Real.sin (2 * Real.pi * (k : ℝ) / 16), (k : ℝ), 1⟩ : Sample)) =
      (fun (k : ℕ) => 100 + 50 * Real.cos (2 * Real.pi * (k : ℝ) / 16)) from rfl]
  rw [list_range_map_sum]
  rw [Finset.sum_add_distrib, Finset.sum_const, Finset.card_range]
  rw [← Finset.mul_sum, sum_cos_sixteenth]
  norm_num

/-- The sixteen demo samples have y coordinates summing to 1600. -/
theorem circleDemo_sum_y : (circleDemoPoints.map Sample.y).sum = 1600 := by
  unfold circleDemoPoints
  rw [List.map_map]
  rw [show (Sample.y ∘ fun (k : ℕ) =>
      (⟨100 + 50 * Real.cos (2 * Real.pi * (k : ℝ) / 16),
        100 + 50 * Real.sin (2 * Real.pi * (k : ℝ) / 16), (k : ℝ), 1⟩ : Sample)) =
      (fun (k : ℕ) => 100 + 50 * Real.sin (2 * Real.pi * (k : ℝ) / 16)) from rfl]
  rw [list_range_map_sum]
  rw [Finset.sum_add_distrib, Finset.sum_const, Finset.card_range]
  rw [← Finset.mul_sum, sum_sin_sixteenth]
  norm_num

/-- The demo point list has sixteen entries. -/
theorem circleDemo_length : circleDemoPoints.length = 16 := by
  unfold circleDemoPoints
  rw [List.length_map, List.length_range]

/-- The centroid of the demo points is the circle centre (100, 100). -/
theorem circleDemo_centroid : calculateCentroid circleDemoPoints = ⟨100, 100⟩ := by
  rw [calculateCentroid_eq, circleDemo_sum_x, circleDemo_sum_y, circleDemo_length]
  norm_num

/-- Every demo point has distance exactly 50 to the circle centre. -/
theorem circleDemo_dist : ∀ p ∈ circleDemoPoints, distance p.pt ⟨100, 100⟩ = 50 := by
  intro p hp
  unfold circleDemoPoints at hp
  rw [List.mem_map] at hp
  obtain ⟨k, _, rfl⟩ := hp
  unfold distance Sample.pt
  dsimp only
  rw [show (100 + 50 * Real.cos (2 * Real.pi * (k : ℝ) / 16) - 100) ^ 2 +
      (100 + 50 * Real.sin (2 * Real.pi * (k : ℝ) / 16) - 100) ^ 2 = 2500 from by
    linear_combination (2500 : ℝ) * Real.sin_sq_add_cos_sq (2 * Real.pi * (k : ℝ) / 16)]
  rw [show (2500 : ℝ) = 50 ^ 2 by norm_num]
  exact Real.sqrt_sq (by norm_num)

/-- The circle scan over points all at one radius within tolerance counts all
of them and sums that radius once per point. -/
theorem circleScan_const (c : Pt) (radius tol r0 : ℝ)
    (hr : |r0 - radius| ≤ radius * tol) :
    ∀ (l : List Sample) (acc : ℝ × ℕ), (∀ p ∈ l, distance p.pt c = r0) →
      l.foldl (circleStep c radius tol) acc =
        (acc.1 + l.length * r0, acc.2 + l.length) := by
  intro l
  induction l with
  | nil =>
    intro acc _
    simp
  | cons p rest ih =>
    intro acc hall
    have hp : distance p.pt c = r0 := hall p (List.mem_cons_self p rest)
    have hstep : circleStep c radius tol acc p = (acc.1 + r0, acc.2 + 1) := by
      unfold circleStep
      dsimp only
      rw [hp, if_pos hr]
    rw [List.foldl_cons, hstep]
    rw [ih _ (fun q hq => hall q (List.mem_cons_of_mem _ hq))]
    simp only [List.length_cons, Prod.mk.injEq]
    constructor
    · push_cast
      ring
    · omega

/-- The circle scan computes the sum of counted distances and the counted
length of the specification's filtered point list. -/
theorem circleScan_filter (c : Pt) (radius tol : ℝ) :
    ∀ (l : List Sample) (acc : ℝ × ℕ),
      l.foldl (circleStep c radius tol) acc =
        (acc.1 + ((l.filter (fun p => |distance p.pt c - radius| ≤ radius * tol)).map
            (fun p => distance p.pt c)).sum,
         acc.2 + (l.filter (fun p => |distance p.pt c - radius| ≤ radius * tol)).length) := by
  intro l
  induction l with
  | nil =>
    intro acc
    simp
  | cons p rest ih =>
    intro acc
    by_cases hp : |distance p.pt c - radius| ≤ radius * tol
    · have hstep : circleStep c radius tol acc p =
          (acc.1 + distance p.pt c, acc.2 + 1) := by
        unfold circleStep
        dsimp only
        rw [if_pos hp]
      rw [List.foldl_cons, hstep, ih]
      simp only [List.filter_cons, decide_eq_true hp, if_pos, List.map_cons,
        List.sum_cons, List.length_cons, Prod.mk.injEq]
      constructor
      · ring
      · omega
    · have hstep : circleStep c radius tol acc p = acc := by
        unfold circleStep
        dsimp only
        rw [if_neg hp]
      rw [List.foldl_cons, hstep, ih]
      simp only [List.filter_cons, decide_eq_false hp, Bool.false_eq_true, if_neg,
        not_false_eq_true]

/-- Full evaluation of the circle detector on the sixteen demo points. -/
theorem circleDemo_eval :
    detectMouseCircle circleDemoPoints circleDemoOptions =
      { isMatch := true, confidence := some 1, radius := some 50,
        center := some ⟨100, 100⟩, metaPoints := some 16, metaCoverage := some 1 } := by
  unfold detectMouseCircle
  rw [if_neg (by rw [circleDemo_length]; norm_num)]
  dsimp only
  rw [circleDemo_centroid]
  rw [show circleDemoOptions.radius = 50 from rfl,
    show circleDemoOptions.tolerance = 0.3 from rfl]
  rw [circleScan_const ⟨100, 100⟩ 50 0.3 50 (by norm_num) circleDemoPoints (0, 0)
    circleDemo_dist]
  rw [circleDemo_length]
  dsimp only
  split_ifs with hcov
  · simp only [DetectionResult.mk.injEq]
    norm_num
  · exfalso
    apply hcov
    push_cast
    norm_num

/-- C1: for eight or more points the circle detector matches exactly when the
specification's coverage reaches 0.7; its confidence is the coverage, its
payload centre is the centroid and its payload radius is the mean distance of
the counted points; fewer than eight points never match; and the sixteen
evenly spaced demo points on the radius-50 circle at (100, 100) with
tolerance 0.3 match with detected radius in [35, 65] and centre exactly
(100, 100). -/
theorem C1_circle_detector :
    (∀ (points : List Sample) (options : GestureOptions), 8 ≤ points.length →
      ((detectMouseCircle points options).isMatch = true ↔
        0.7 ≤ circleCoverage points options.radius options.tolerance) ∧
      (detectMouseCircle points options).confidence =
        some (circleCoverage points options.radius options.tolerance) ∧
      (detectMouseCircle points options).center = some (calculateCentroid points) ∧
      (detectMouseCircle points options).radius =
        some (circleMeanRadius points options.radius options.tolerance)) ∧
    (∀ (points : List Sample) (options : GestureOptions), points.length < 8 →
      (detectMouseCircle points options).isMatch = false) ∧
    ((detectMouseCircle circleDemoPoints circleDemoOptions).isMatch = true ∧
      (∃ r, (detectMouseCircle circleDemoPoints circleDemoOptions).radius = some r ∧
        35 ≤ r ∧ r ≤ 65) ∧
      (detectMouseCircle circleDemoPoints circleDemoOptions).center =
        some ⟨100, 100⟩) := by
  refine ⟨?_, ?_, ?_⟩
  · intro points options h8
    unfold detectMouseCircle
    rw [if_neg (not_lt.mpr h8)]
    dsimp only
    rw [circleScan_filter (calculateCentroid points) options.radius options.tolerance
      points (0, 0)]
    simp only [zero_add]
    unfold circleCoverage circleMeanRadius circleCounted
    refine ⟨?_, ?_, ?_, ?_⟩
    · dsimp only
      split_ifs with hcov
      · exact iff_of_true rfl hcov
      · exact iff_of_false (by simp) hcov
    · trivial
    · trivial
    · trivial
  · intro points options h8
    unfold detectMouseCircle
    rw [if_pos h8]
  · rw [circleDemo_eval]
    exact ⟨rfl, ⟨50, rfl, by norm_num, by norm_num⟩, rfl⟩

/-- Witness for C1 at the sixteen demo points. -/
theorem C1_circle_detector_witness :
    (8 ≤ circleDemoPoints.length) ∧
      (detectMouseCircle circleDemoPoints circleDemoOptions).confidence =
        some (circleCoverage circleDemoPoints circleDemoOptions.radius
          circleDemoOptions.tolerance) :=
  ⟨by simp [circleDemoPoints],
    (C1_circle_detector.1 circleDemoPoints circleDemoOptions
      (by simp [circleDemoPoints])).2.1⟩

/-- Unfolding of detectSwipe once the two-sample guard has passed. -/
theorem detectSwipe_eq (points : List Sample) (opts : GestureOptions)
    (h2 : 2 ≤ points.length) :
    detectSwipe points opts =
      if distance (points.headD ⟨0, 0, 0, 0⟩).pt (points.getLastD ⟨0, 0, 0, 0⟩).pt <
            opts.minDistance ∨
          opts.maxTime <
            (points.getLastD ⟨0, 0, 0, 0⟩).timestamp -
              (points.headD ⟨0, 0, 0, 0⟩).timestamp
        then { isMatch := false }
        else
          { isMatch := match opts.direction with
              | none => true
              | some d =>
                if angleToDirection (calculateAngle (points.headD ⟨0, 0, 0, 0⟩)
                    (points.getLastD ⟨0, 0, 0, 0⟩)) = d
                  then true else false
            direction := some (angleToDirection (calculateAngle
              (points.headD ⟨0, 0, 0, 0⟩) (points.getLastD ⟨0, 0, 0, 0⟩)))
            distance := some (distance (points.headD ⟨0, 0, 0, 0⟩).pt
              (points.getLastD ⟨0, 0, 0, 0⟩).pt)
            duration := some ((points.getLastD ⟨0, 0, 0, 0⟩).timestamp -
              (points.headD ⟨0, 0, 0, 0⟩).timestamp)
            velocity := some (distance (points.headD ⟨0, 0, 0, 0⟩).pt
                (points.getLastD ⟨0, 0, 0, 0⟩).pt /
              ((points.getLastD ⟨0, 0, 0, 0⟩).timestamp -
                (points.headD ⟨0, 0, 0, 0⟩).timestamp))
            angle := some (calculateAngle (points.headD ⟨0, 0, 0, 0⟩)
              (points.getLastD ⟨0, 0, 0, 0⟩)) } := by
  unfold detectSwipe
  rw [if_neg (not_lt.mpr h2)]

/-- The swipe scenario distance: from (50, 100) to (200, 100) is 150. -/
theorem swipeDemo_dist :
    distance ((⟨50, 100, 0, 1⟩ : Sample)).pt ((⟨200, 100, 200, 1⟩ : Sample)).pt = 150 := by
  unfold distance Sample.pt
  dsimp only
  rw [show ((50 : ℝ) - 200) ^ 2 + ((100 : ℝ) - 100) ^ 2 = 150 ^ 2 by norm_num]
  exact Real.sqrt_sq (by norm_num)

/-- The swipe scenario angle: a pure rightward displacement has angle 0. -/
theorem swipeDemo_angle :
    calculateAngle (⟨50, 100, 0, 1⟩ : Sample) (⟨200, 100, 200, 1⟩ : Sample) = 0 := by
  unfold calculateAngle atan2
  dsimp only
  have e : (⟨200 - 50, 100 - 100⟩ : ℂ) = ((150 : ℝ) : ℂ) := by
    apply Complex.ext
    · simp
      norm_num
    · simp
  rw [e, Complex.arg_ofReal_of_nonneg (by norm_num : (0 : ℝ) ≤ 150)]
  simp

/-- Angle 0 buckets to the right direction. -/
theorem angleToDirection_zero : angleToDirection 0 = .right := by
  unfold angleToDirection
  rw [jsNormalize_of_nonneg 0 le_rfl (by norm_num)]
  rw [if_pos (Or.inl (by norm_num))]

/-- Full evaluation of the swipe scenario. -/
theorem swipeDemo_eval :
    detectSwipe swipeDemoPoints swipeDemoOptions =
      { isMatch := true, direction := some .right, distance := some 150,
        duration := some 200, velocity := some (150 / 200), angle := some 0 } := by
  rw [detectSwipe_eq swipeDemoPoints swipeDemoOptions (by simp [swipeDemoPoints])]
  rw [show swipeDemoPoints.headD ⟨0, 0, 0, 0⟩ = ⟨50, 100, 0, 1⟩ from rfl,
    show swipeDemoPoints.getLastD ⟨0, 0, 0, 0⟩ = ⟨200, 100, 200, 1⟩ from rfl,
    swipeDemo_dist, swipeDemo_angle,
    show swipeDemoOptions.minDistance = 100 from rfl,
    show swipeDemoOptions.maxTime = 300 from rfl,
    show swipeDemoOptions.direction = none from rfl]
  rw [if_neg (by dsimp only; norm_num)]
  rw [angleToDirection_zero]
  dsimp only
  norm_num

/-- C3: the swipe detector rejects when the first-to-last distance is below
minDistance or the duration exceeds maxTime; otherwise the payload carries
the first-to-last distance, duration, velocity and the atan2 angle bucketed
into the four compass quadrants, and the result matches exactly when the
direction option is unspecified or equals the detected direction; the atan2
angle is always in (-180, 180] and the buckets on that range are
[-45, 45) right, [45, 135) down, [135, 180] together with (-180, -135) left,
and [-135, -45) up.  On the two samples (50,100) at 0 ms and (200,100) at
200 ms with minDistance 100 and maxTime 300 it detects a 150-pixel right
swipe. -/
theorem C3_swipe_detector :
    (∀ (points : List Sample) (options : GestureOptions), 2 ≤ points.length →
      ((distance (points.headD ⟨0, 0, 0, 0⟩).pt (points.getLastD ⟨0, 0, 0, 0⟩).pt <
            options.minDistance ∨
          options.maxTime <
            (points.getLastD ⟨0, 0, 0, 0⟩).timestamp -
              (points.headD ⟨0, 0, 0, 0⟩).timestamp →
        (detectSwipe points options).isMatch = false) ∧
      (options.minDistance ≤
          distance (points.headD ⟨0, 0, 0, 0⟩).pt (points.getLastD ⟨0, 0, 0, 0⟩).pt →
        (points.getLastD ⟨0, 0, 0, 0⟩).timestamp -
            (points.headD ⟨0, 0, 0, 0⟩).timestamp ≤ options.maxTime →
        (detectSwipe points options).direction =
          some (angleToDirection (calculateAngle (points.headD ⟨0, 0, 0, 0⟩)
            (points.getLastD ⟨0, 0, 0, 0⟩))) ∧
        ((detectSwipe points options).isMatch = true ↔
          options.direction = none ∨
            options.direction = some (angleToDirection (calculateAngle
              (points.headD ⟨0, 0, 0, 0⟩) (points.getLastD ⟨0, 0, 0, 0⟩)))) ∧
        (detectSwipe points options).distance =
          some (distance (points.headD ⟨0, 0, 0, 0⟩).pt
            (points.getLastD ⟨0, 0, 0, 0⟩).pt) ∧
        (detectSwipe points options).duration =
          some ((points.getLastD ⟨0, 0, 0, 0⟩).timestamp -
            (points.headD ⟨0, 0, 0, 0⟩).timestamp) ∧
        (detectSwipe points options).velocity =
          some (distance (points.headD ⟨0, 0, 0, 0⟩).pt
              (points.getLastD ⟨0, 0, 0, 0⟩).pt /
            ((points.getLastD ⟨0, 0, 0, 0⟩).timestamp -
              (points.headD ⟨0, 0, 0, 0⟩).timestamp))))) ∧
    (∀ a : ℝ, -180 < a → a ≤ 180 →
      (angleToDirection a = .right ↔ (-45 ≤ a ∧ a < 45)) ∧
      (angleToDirection a = .down ↔ (45 ≤ a ∧ a < 135)) ∧
      (angleToDirection a = .left ↔ (135 ≤ a ∨ a < -135)) ∧
      (angleToDirection a = .up ↔ (-135 ≤ a ∧ a < -45))) ∧
    (∀ s f : Sample, -180 < calculateAngle s f ∧ calculateAngle s f ≤ 180) ∧
    ((detectSwipe swipeDemoPoints swipeDemoOptions).direction = some .right ∧
      (detectSwipe swipeDemoPoints swipeDemoOptions).distance = some 150 ∧
      (detectSwipe swipeDemoPoints swipeDemoOptions).isMatch = true) := by
  refine ⟨?_, angleToDirection_spec, calculateAngle_range, ?_⟩
  · intro points options h2
    rw [detectSwipe_eq points options h2]
    constructor
    · intro hrej
      rw [if_pos hrej]
    · intro hd ht
      rw [if_neg (not_or.mpr ⟨not_lt.mpr hd, not_lt.mpr ht⟩)]
      refine ⟨rfl, ?_, rfl, rfl, rfl⟩
      rcases hdir : options.direction with _ | d
      · exact iff_of_true rfl (Or.inl rfl)
      · dsimp only
        by_cases he : angleToDirection (calculateAngle (points.headD ⟨0, 0, 0, 0⟩)
            (points.getLastD ⟨0, 0, 0, 0⟩)) = d
        · rw [if_pos he]
          exact iff_of_true rfl (Or.inr (by rw [he]))
        · rw [if_neg he]
          constructor
          · intro hfalse
            exact absurd hfalse (by simp)
          · rintro (h | h)
            · exact Option.noConfusion h
            · rw [Option.some.injEq] at h
              exact absurd h.symm he
  · rw [swipeDemo_eval]
    exact ⟨rfl, rfl, rfl⟩

/-- Witness for C3: the scenario samples satisfy the guards and the bucket
characterisation applies at 90 degrees. -/
theorem C3_swipe_detector_witness :
    (2 ≤ swipeDemoPoints.length) ∧
    ((-180 : ℝ) < 90 ∧ (90 : ℝ) ≤ 180) ∧
    (angleToDirection 90 = .down ↔ ((45 : ℝ) ≤ 90 ∧ (90 : ℝ) < 135)) ∧
    (swipeDemoOptions.minDistance ≤
        distance (swipeDemoPoints.headD ⟨0, 0, 0, 0⟩).pt
          (swipeDemoPoints.getLastD ⟨0, 0, 0, 0⟩).pt →
      (swipeDemoPoints.getLastD ⟨0, 0, 0, 0⟩).timestamp -
          (swipeDemoPoints.headD ⟨0, 0, 0, 0⟩).timestamp ≤ swipeDemoOptions.maxTime →
      (detectSwipe swipeDemoPoints swipeDemoOptions).direction =
        some (angleToDirection (calculateAngle (swipeDemoPoints.headD ⟨0, 0, 0, 0⟩)
          (swipeDemoPoints.getLastD ⟨0, 0, 0, 0⟩))) ∧
      ((detectSwipe swipeDemoPoints swipeDemoOptions).isMatch = true ↔
        swipeDemoOptions.direction = none ∨
          swipeDemoOptions.direction = some (angleToDirection (calculateAngle
            (swipeDemoPoints.headD ⟨0, 0, 0, 0⟩)
            (swipeDemoPoints.getLastD ⟨0, 0, 0, 0⟩)))) ∧
      (detectSwipe swipeDemoPoints swipeDemoOptions).distance =
        some (distance (swipeDemoPoints.headD ⟨0, 0, 0, 0⟩).pt
          (swipeDemoPoints.getLastD ⟨0, 0, 0, 0⟩).pt) ∧
      (detectSwipe swipeDemoPoints swipeDemoOptions).duration =
        some ((swipeDemoPoints.getLastD ⟨0, 0, 0, 0⟩).timestamp -
          (swipeDemoPoints.headD ⟨0, 0, 0, 0⟩).timestamp) ∧
      (detectSwipe swipeDemoPoints swipeDemoOptions).velocity =
        some (distance (swipeDemoPoints.headD ⟨0, 0, 0, 0⟩).pt
            (swipeDemoPoints.getLastD ⟨0, 0, 0, 0⟩).pt /
          ((swipeDemoPoints.getLastD ⟨0, 0, 0, 0⟩).timestamp -
            (swipeDemoPoints.headD ⟨0, 0, 0, 0⟩).timestamp))) :=
  ⟨by simp [swipeDemoPoints], ⟨by norm_num, by norm_num⟩,
    (C3_swipe_detector.2.1 90 (by norm_num) (by norm_num)).2.1,
    (C3_swipe_detector.1 swipeDemoPoints swipeDemoOptions
      (by simp [swipeDemoPoints])).2⟩

/-- C9: a registration created with mouseLine(100, 20) never produces a match,
even on four perfectly collinear samples spanning 150 pixels: the dispatcher
switch has no mouse_line case and no line detector exists in the repository,
so the result keeps its initial no-match value and the gesture never fires. -/
theorem C9_mouse_line_never_fires :
    analyzeActiveGestures 0
        [⟨0, 0, 0, 1⟩, ⟨50, 0, 1, 1⟩, ⟨100, 0, 2, 1⟩, ⟨150, 0, 3, 1⟩] []
        (startDetection
          (registerPattern [] ("line") .mouse_line
            { minLength := 100, maxDeviation := 20 })) =
      Except.ok
        (startDetection
          (registerPattern [] ("line") .mouse_line
            { minLength := 100, maxDeviation := 20 }),
         [⟨("line"), false, []⟩]) := by
  rfl

end HMI
